/-
Verification of the GirlDetect repository's two scripts against their
natural-language specification.

The repository has two independent pipelines:
  * `scripts/prepare_yolo_dataset.py` — scans a source directory for images,
    splits them into train/val, copies images and same-basename `.txt` labels
    into a destination layout, and writes a `data.yaml` manifest;
  * `scripts/detect.py` — loads an image (local path or URL), runs YOLO
    inference, annotates, and saves the result.

This file gives a shallow embedding of both scripts.  Filesystem and network
effects are made explicit: directory contents are passed in as lists of
entries, HTTP fetch and image-decode outcomes are oracle parameters, and each
operation returns the files it writes.  External-library behaviour that the
scripts rely on (CPython's `random.shuffle` generator, `requests`'
`raise_for_status`, `cv2` decoding) is modelled where noted in doc comments.
-/
import Mathlib

namespace GirlDetect

/-! ## Python string/path primitives used by both scripts -/

/-- One entry of a directory listing, as yielded by `Path.iterdir()`.
`iterdir` yields every child of the directory — regular files and
subdirectories alike — so an entry carries an `isFile` flag. -/
structure Entry where
  name : String
  isFile : Bool
deriving DecidableEq, Repr

/-- `pathlib.PurePath.suffix` of a file name (no directory separators):
the substring from the last dot onwards, provided that dot is neither the
first nor the last character; otherwise the empty string. -/
def pySuffix (name : String) : String :=
  let cs := name.data
  let n := cs.length
  match (List.range n).filter (fun i => cs.getD i ' ' = '.') |>.getLast? with
  | none => ""
  | some i => if 0 < i ∧ i < n - 1 then String.mk (cs.drop i) else ""

/-- `pathlib.PurePath.stem` of a file name: the name with `pySuffix` removed. -/
def pyStem (name : String) : String :=
  String.mk (name.data.take (name.data.length - (pySuffix name).data.length))

/-- `Path.with_suffix('.txt')` applied to a file name: the stem with `.txt`
appended (Python replaces the suffix, or appends one when there is none). -/
def withSuffixTxt (name : String) : String :=
  pyStem name ++ ".txt"

/-- `str.lower()` restricted to ASCII, which is all the extension comparison
in `find_images` needs. -/
def pyLower (s : String) : String :=
  String.mk (s.data.map Char.toLower)

/-- Split a character list at every occurrence of `c` (the pieces do not
contain `c`; `n` separators yield `n + 1` pieces). -/
def splitOnChar (c : Char) : List Char → List (List Char)
  | [] => [[]]
  | x :: xs =>
    let r := splitOnChar c xs
    if x = c then [] :: r
    else
      match r with
      | [] => [[x]]
      | h :: t => (x :: h) :: t

/-- `str.splitlines()`.  We model universal newlines as `'\n'`: split on
newline with no entry for a trailing newline. -/
def pySplitlines (s : String) : List String :=
  let parts := (splitOnChar '\n' s.data).map String.mk
  if parts.getLast? = some "" then parts.dropLast else parts

/-- ASCII whitespace, as `str.strip()` removes it. -/
def isPySpace (c : Char) : Bool :=
  c == ' ' || c == '\t' || c == '\n' || c == '\r' || c == '\x0b' || c == '\x0c'

/-- `str.strip()`: whitespace removed from both ends. -/
def pyStrip (s : String) : String :=
  String.mk (((s.data.dropWhile isPySpace).reverse.dropWhile isPySpace).reverse)

/-- Python `int()` applied to a real number: truncation toward zero. -/
def pyInt (q : ℚ) : ℤ := if 0 ≤ q then ⌊q⌋ else ⌈q⌉

/-! ## `scripts/prepare_yolo_dataset.py` -/

/-- The test of `find_images`' comprehension: `p.suffix.lower() in exts`
with `exts = ('.jpg','.jpeg','.png')`. -/
def isImageExt (name : String) : Bool :=
  [".jpg", ".jpeg", ".png"].contains (pyLower (pySuffix name))

/-- `find_images(src)`: `[p for p in src.iterdir() if p.suffix.lower() in exts]`.
`iterdir` is a flat listing of the directory (no recursion), and the
comprehension filters on suffix only — it never checks whether the entry is
a regular file. -/
def find_images (entries : List Entry) : List Entry :=
  entries.filter (fun p => isImageExt p.name)

/-- `read_classes(src)`: the content of `classes.txt` is passed as
`some content` when the file exists and `none` when it does not.
The script returns `None` for a missing file and otherwise
`[l.strip() for l in content.splitlines() if l.strip()]`. -/
def read_classes (classesTxt : Option String) : Option (List String) :=
  match classesTxt with
  | none => none
  | some content =>
      some ((pySplitlines content).filterMap (fun l =>
        if pyStrip l = "" then none else some (pyStrip l)))

/-- The specification's literal reading of `read_classes`, for comparison:
"returns the lines of classes.txt with blank lines skipped" — the raw lines,
without stripping. -/
def read_classes_claimed (classesTxt : Option String) : Option (List String) :=
  classesTxt.map (fun content => (pySplitlines content).filter (fun l => l != ""))

/-- Modelled from the spec: the seeded pseudo-random generator behind
`random.shuffle`.  CPython uses a Mersenne Twister, whose code is not part of
this repository; the spec requires only same-seed determinism, "not
bit-for-bit portability across different pseudo-random algorithms", so we
document our generator: a 64-bit linear congruential generator. -/
def lcgNext (s : Nat) : Nat :=
  (s * 6364136223846793005 + 1442695040888963407) % 18446744073709551616

/-- Swap the elements at positions `i` and `j` of a list (identity when either
index is out of range). -/
def listSwap {α : Type} (l : List α) (i j : Nat) : List α :=
  match l[i]?, l[j]? with
  | some a, some b => (l.set i b).set j a
  | _, _ => l

/-- One iteration of the Fisher–Yates loop of `random.shuffle`
(`j = randbelow(i+1); swap x[i], x[j]`), threading the generator state. -/
def shuffleStep (acc : List String × Nat) (i : Nat) : List String × Nat :=
  let s' := lcgNext acc.2
  (listSwap acc.1 i (s' % (i + 1)), s')

/-- Modelled from the spec: `random.seed(seed)` followed by
`random.shuffle(l)` — the Fisher–Yates loop
`for i in reversed(range(1, len(x))): j = randbelow(i+1); swap x[i], x[j]`,
with the LCG of `lcgNext` as the documented generator.  Deterministic in
`seed` and `l`. -/
def pyShuffle (seed : Nat) (l : List String) : List String :=
  ((((List.range (l.length - 1)).map (· + 1)).reverse).foldl shuffleStep (l, seed)).1

/-- The split computed inline in `main` (the spec calls it `splitTrainVal`):
`imgs_sorted = sorted(imgs); random.shuffle(imgs_sorted);
n_val = max(1, int(len(imgs_sorted) * args.val));
val_imgs = imgs_sorted[:n_val]; train_imgs = imgs_sorted[n_val:]`.
Images are identified by name (all live in the one source directory, so
sorting paths is sorting names).  Returns `(train_imgs, val_imgs)`. -/
def splitTrainVal (images : List String) (valFraction : ℚ) (seed : Nat) :
    List String × List String :=
  let imgsSorted := List.insertionSort (· ≤ ·) images
  let shuffled := pyShuffle seed imgsSorted
  let nVal := (max 1 (pyInt ((shuffled.length : ℚ) * valFraction))).toNat
  (shuffled.drop nVal, shuffled.take nVal)

/-- Result of `copy_pairs`: the returned `(copied, missing_labels)` pair
together with the files the call writes into the destination images and
labels directories. -/
structure CopyResult where
  copied : Nat
  missing_labels : List String
  dstImages : List String
  dstLabels : List String
deriving DecidableEq, Repr

/-- `copy_pairs(pairs, images_dst, labels_dst)`: for each image, copy it to
the images destination; if the same-basename `.txt` exists (the
`labelExists` oracle, `txt.exists()` on the source directory), copy it to the
labels destination, otherwise append the image name to `missing_labels`;
count every image as copied.  The loop body has no raise on a missing label,
which the embedding reflects by being a total function. -/
def copy_pairs (pairs : List String) (labelExists : String → Bool) : CopyResult :=
  match pairs with
  | [] => ⟨0, [], [], []⟩
  | img :: rest =>
    let r := copy_pairs rest labelExists
    if labelExists (withSuffixTxt img) then
      ⟨r.copied + 1, r.missing_labels, img :: r.dstImages, withSuffixTxt img :: r.dstLabels⟩
    else
      ⟨r.copied + 1, img :: r.missing_labels, img :: r.dstImages, r.dstLabels⟩

/-- The `data.yaml` content that matters to the claims: class count and
class-name list (`write_data_yaml(dest, nc=len(classes), names=classes)`). -/
structure Manifest where
  nc : Nat
  names : List String
deriving DecidableEq, Repr

/-- The observable outcome of one run of `main`: whether it exited on an
empty image set, whether the four-directory layout was created, the split,
the two `copy_pairs` results, the destination contents, and the manifest
(`none` when `write_data_yaml` never ran). -/
structure MainResult where
  exitedEmpty : Bool
  warnedNoClasses : Bool
  dirsCreated : Bool
  trainImgs : List String
  valImgs : List String
  copiedTrain : Nat
  missingTrain : List String
  copiedVal : Nat
  missingVal : List String
  dstTrainImages : List String
  dstTrainLabels : List String
  dstValImages : List String
  dstValLabels : List String
  manifest : Option Manifest
deriving DecidableEq, Repr

/-- `main()` of `prepare_yolo_dataset.py` after argument parsing: the source
directory is given by its entry list and the optional content of
`classes.txt`.  Mirrors the script's order: find images; if none, print and
return (before `prepare_dirs`, any copy, and `write_data_yaml`); read
classes (warn and use `[]` when absent); create directories; split;
copy train then val; write `data.yaml`. -/
def main (entries : List Entry) (classesTxt : Option String)
    (valFraction : ℚ) (seed : Nat) : MainResult :=
  let imgs := find_images entries
  if imgs.isEmpty then
    { exitedEmpty := true, warnedNoClasses := false, dirsCreated := false,
      trainImgs := [], valImgs := [], copiedTrain := 0, missingTrain := [],
      copiedVal := 0, missingVal := [], dstTrainImages := [], dstTrainLabels := [],
      dstValImages := [], dstValLabels := [], manifest := none }
  else
    let classes0 := read_classes classesTxt
    let warned := classes0.isNone
    let classes := classes0.getD []
    let labelExists : String → Bool := fun nm => entries.any (fun e => e.name == nm)
    let split := splitTrainVal (imgs.map Entry.name) valFraction seed
    let rTrain := copy_pairs split.1 labelExists
    let rVal := copy_pairs split.2 labelExists
    { exitedEmpty := false, warnedNoClasses := warned, dirsCreated := true,
      trainImgs := split.1, valImgs := split.2,
      copiedTrain := rTrain.copied, missingTrain := rTrain.missing_labels,
      copiedVal := rVal.copied, missingVal := rVal.missing_labels,
      dstTrainImages := rTrain.dstImages, dstTrainLabels := rTrain.dstLabels,
      dstValImages := rVal.dstImages, dstValLabels := rVal.dstLabels,
      manifest := some { nc := classes.length, names := classes } }

/-! ## `scripts/detect.py`

The detection pipeline delegates inference to external libraries; the
embedding keeps the script's own control flow and models library calls as
oracle parameters: the HTTP fetch outcome (`Option HttpResponse`, `none`
when `requests.get` raises), whether `cv2.imdecode` succeeds on the body,
and whether `cv2.imread` succeeds on a local path.  Model loading and
`model.predict`/`plot` are treated as succeeding (their failures are the
external library's, outside the claims).  Each operation also reports the
list of files it writes, so "no output file is written" is statable. -/

/-- `str.startswith(prefix)`. -/
def pyStartswith (s pre : String) : Bool :=
  pre.data.isPrefixOf s.data

/-- `is_url(path)`: string starts with `http://` or `https://`. -/
def is_url (path : String) : Bool :=
  pyStartswith path "http://" || pyStartswith path "https://"

/-- The final HTTP response observed by `requests.get`: its status code and
whether its body bytes decode to an image under `cv2.imdecode`. -/
structure HttpResponse where
  status : Nat
  bodyDecodes : Bool
deriving DecidableEq, Repr

/-- The exceptions the script can raise while loading an image:
`requests` connection/timeout errors, `requests.HTTPError` from
`raise_for_status`, and the script's own `ValueError`s. -/
inductive DetectError where
  | requestError : DetectError
  | httpError (status : Nat) : DetectError
  | valueError (msg : String) : DetectError
deriving DecidableEq, Repr

/-- `load_image_from_url(url)`: `requests.get` (raises when unreachable,
modelled by `fetch = none`), then `response.raise_for_status()` — which, per
`requests`' documented behaviour, raises exactly for status codes 400–599 —
then `cv2.imdecode`, which returns `None` (here `Option.none`) when the body
is not a decodable image. -/
def load_image_from_url (fetch : Option HttpResponse) :
    Except DetectError (Option Unit) :=
  match fetch with
  | none => .error .requestError
  | some r =>
    if 400 ≤ r.status ∧ r.status ≤ 599 then .error (.httpError r.status)
    else .ok (if r.bodyDecodes then some () else none)

/-- `detect_and_annotate(image_path, model_path, conf)`: for a URL, load via
`load_image_from_url` and raise `ValueError` if the result is `None`; for a
local path, `cv2.imread` (`localReads` oracle) and raise `ValueError` if it
returns `None`.  Inference and box drawing are external and modelled as
succeeding. -/
def detect_and_annotate (image_path : String) (fetch : Option HttpResponse)
    (localReads : Bool) : Except DetectError Unit :=
  if is_url image_path then
    match load_image_from_url fetch with
    | .error e => .error e
    | .ok none => .error (.valueError ("Cannot download image from URL: " ++ image_path))
    | .ok (some _) => .ok ()
  else
    if localReads then .ok ()
    else .error (.valueError ("Cannot read image: " ++ image_path))

/-- A `pathlib.PurePosixPath`: whether it is absolute, and its components
(`parts`), with empty and `.` components dropped as `pathlib` does. -/
structure PyPath where
  absolute : Bool
  parts : List String
deriving DecidableEq, Repr

/-- Parse a path string as `pathlib.Path` does (POSIX flavour). -/
def pyPath (s : String) : PyPath :=
  ⟨pyStartswith s "/",
   ((splitOnChar '/' s.data).map String.mk).filter (fun c => c != "" && c != ".")⟩

/-- Join strings with a `/` between consecutive entries. -/
def joinSlash : List String → String
  | [] => ""
  | [x] => x
  | x :: y :: xs => x ++ "/" ++ joinSlash (y :: xs)

/-- `str()` of a `pathlib` path: `.` for the empty relative path, otherwise
the components joined by `/` (with a leading `/` when absolute). -/
def pathStr (p : PyPath) : String :=
  if p.absolute then "/" ++ joinSlash p.parts
  else if p.parts = [] then "." else joinSlash p.parts

/-- `Path.parent`: drop the last component (the root and the empty relative
path are their own parents). -/
def pathParent (p : PyPath) : PyPath := ⟨p.absolute, p.parts.dropLast⟩

/-- `Path.name`: the last component, or `""` when there is none. -/
def pathName (p : PyPath) : String := (p.parts.getLast?).getD ""

/-- `Path.__truediv__` with a single-component child name. -/
def pathJoin (p : PyPath) (child : String) : PyPath :=
  ⟨p.absolute, p.parts ++ [child]⟩

/-- The default output path of `detect_and_save` when `output_path` is
omitted: `Path('url_detected.jpg')` for a URL source, otherwise
`image_path.parent / f"{stem}_detected{suffix}"`, rendered with `str`. -/
def default_output (image_path : String) : String :=
  if is_url image_path then "url_detected.jpg"
  else
    let p := pyPath image_path
    pathStr (pathJoin (pathParent p)
      (pyStem (pathName p) ++ "_detected" ++ pySuffix (pathName p)))

/-- `detect_and_save(image_path, output_path, model_path, conf)`: resolve the
output path (deriving the default when omitted), run `detect_and_annotate`
— any exception propagates before `cv2.imwrite` runs — then write the
annotated image and return the output path as a string.  The second
component is the list of files the call writes. -/
def detect_and_save (image_path : String) (outputPath? : Option String)
    (fetch : Option HttpResponse) (localReads : Bool) :
    Except DetectError String × List String :=
  let outputPath :=
    match outputPath? with
    | some o => o
    | none => default_output image_path
  match detect_and_annotate image_path fetch localReads with
  | .error e => (.error e, [])
  | .ok _ => (.ok outputPath, [outputPath])

/-! ## Helper lemmas -/

theorem length_listSwap {α : Type} (l : List α) (i j : Nat) :
    (listSwap l i j).length = l.length := by
  unfold listSwap
  split <;> simp

theorem length_foldl_shuffleStep (is : List Nat) (l : List String) (s : Nat) :
    ((is.foldl shuffleStep (l, s)).1).length = l.length := by
  induction is generalizing l s with
  | nil => rfl
  | cons i is ih =>
    simp only [List.foldl_cons, shuffleStep]
    rw [ih, length_listSwap]

theorem length_pyShuffle (seed : Nat) (l : List String) :
    (pyShuffle seed l).length = l.length := by
  unfold pyShuffle
  exact length_foldl_shuffleStep ..

/-- Clamping to a minimum of `1` erases the difference between Python's
truncation toward zero and the floor: `max 1 (pyInt q) = max 1 ⌊q⌋`. -/
theorem max_one_pyInt (q : ℚ) : max 1 (pyInt q) = max 1 ⌊q⌋ := by
  unfold pyInt
  split
  · rfl
  · next h =>
    push_neg at h
    have hc : ⌈q⌉ ≤ 0 := Int.ceil_le.mpr (by exact_mod_cast h.le)
    have hf : ⌊q⌋ ≤ 0 := le_trans (Int.floor_le_ceil q) hc
    rw [max_eq_left (by omega), max_eq_left (by omega)]

theorem pyInt_le_ceil (q : ℚ) : pyInt q ≤ ⌈q⌉ := by
  unfold pyInt
  split
  · exact Int.floor_le_ceil q
  · exact le_refl _

/-- `n_val = max(1, int(n * val))` never exceeds `n` when the fraction is at
most `1` and there is at least one image. -/
theorem nVal_le (n : ℕ) (v : ℚ) (hn : 1 ≤ n) (hv : v ≤ 1) :
    (max 1 (pyInt ((n : ℚ) * v))).toNat ≤ n := by
  have h1 : (n : ℚ) * v ≤ (n : ℚ) := by
    calc (n : ℚ) * v ≤ (n : ℚ) * 1 := by
          exact mul_le_mul_of_nonneg_left hv (by positivity)
      _ = (n : ℚ) := mul_one _
  have h2 : pyInt ((n : ℚ) * v) ≤ (n : ℤ) := by
    refine le_trans (pyInt_le_ceil _) ?_
    calc ⌈(n : ℚ) * v⌉ ≤ ⌈(n : ℚ)⌉ := Int.ceil_mono h1
      _ = (n : ℤ) := Int.ceil_natCast n
  have h3 : max 1 (pyInt ((n : ℚ) * v)) ≤ (n : ℤ) :=
    max_le (by exact_mod_cast hn) h2
  exact Int.toNat_le.mpr h3

theorem splitTrainVal_snd_length (l : List String) (v : ℚ) (s : Nat) :
    (splitTrainVal l v s).2.length
      = min ((max 1 (pyInt ((l.length : ℚ) * v))).toNat) l.length := by
  simp only [splitTrainVal, List.length_take, length_pyShuffle,
    List.length_insertionSort]

theorem splitTrainVal_fst_length (l : List String) (v : ℚ) (s : Nat) :
    (splitTrainVal l v s).1.length
      = l.length - (max 1 (pyInt ((l.length : ℚ) * v))).toNat := by
  simp only [splitTrainVal, List.length_drop, length_pyShuffle,
    List.length_insertionSort]

theorem splitTrainVal_length_sum (l : List String) (v : ℚ) (s : Nat) :
    (splitTrainVal l v s).1.length + (splitTrainVal l v s).2.length = l.length := by
  rw [splitTrainVal_fst_length, splitTrainVal_snd_length]
  omega

/-- Sorting by `≤` is a function of the multiset of elements: permuted inputs
sort to the same list. -/
theorem insertionSort_eq_of_perm {l₁ l₂ : List String} (h : l₁.Perm l₂) :
    List.insertionSort (· ≤ ·) l₁ = List.insertionSort (· ≤ ·) l₂ :=
  List.eq_of_perm_of_sorted
    ((List.perm_insertionSort _ _).trans (h.trans (List.perm_insertionSort _ _).symm))
    (List.sorted_insertionSort _ _) (List.sorted_insertionSort _ _)

theorem copy_pairs_copied (pairs : List String) (labelExists : String → Bool) :
    (copy_pairs pairs labelExists).copied = pairs.length := by
  induction pairs with
  | nil => rfl
  | cons img rest ih =>
    simp only [copy_pairs]
    split <;> simp [ih]

theorem copy_pairs_missing (pairs : List String) (labelExists : String → Bool) :
    (copy_pairs pairs labelExists).missing_labels
      = pairs.filter (fun i => !(labelExists (withSuffixTxt i))) := by
  induction pairs with
  | nil => rfl
  | cons img rest ih =>
    simp only [copy_pairs, List.filter_cons]
    cases h : labelExists (withSuffixTxt img) <;> simp [h, ih]

theorem copy_pairs_dstImages (pairs : List String) (labelExists : String → Bool) :
    (copy_pairs pairs labelExists).dstImages = pairs := by
  induction pairs with
  | nil => rfl
  | cons img rest ih =>
    simp only [copy_pairs]
    split <;> simp [ih]

/-- How one run of `main` unfolds when the source directory does contain
images. -/
theorem main_nonempty_spec (entries : List Entry) (classesTxt : Option String)
    (v : ℚ) (s : Nat) (h : find_images entries ≠ []) :
    main entries classesTxt v s =
      (let classes := (read_classes classesTxt).getD []
       let labelExists : String → Bool := fun nm => entries.any (fun e => e.name == nm)
       let split := splitTrainVal ((find_images entries).map Entry.name) v s
       let rTrain := copy_pairs split.1 labelExists
       let rVal := copy_pairs split.2 labelExists
       { exitedEmpty := false, warnedNoClasses := (read_classes classesTxt).isNone,
         dirsCreated := true, trainImgs := split.1, valImgs := split.2,
         copiedTrain := rTrain.copied, missingTrain := rTrain.missing_labels,
         copiedVal := rVal.copied, missingVal := rVal.missing_labels,
         dstTrainImages := rTrain.dstImages, dstTrainLabels := rTrain.dstLabels,
         dstValImages := rVal.dstImages, dstValLabels := rVal.dstLabels,
         manifest := some ⟨classes.length, classes⟩ }) := by
  unfold main
  rw [if_neg (by simpa [List.isEmpty_iff] using h)]

/-! ## Claims -/

/-- C1 (amended): for every image set with `n ≥ 1` images and every
`valFraction ≤ 1`, the split satisfies
`val_count = max(1, floor(n * valFraction))` and
`train_count + val_count = n`, and the validation set has at least one
image.  (The original claim quantified over every `valFraction`; for
`valFraction > 1` the computed `n_val` exceeds `n` and slicing caps the
validation set at `n`, see `C1_counterexample`.) -/
theorem C1_split_counts (l : List String) (v : ℚ) (s : Nat)
    (hne : l ≠ []) (hv : v ≤ 1) :
    (((splitTrainVal l v s).2.length : ℤ) = max 1 ⌊(l.length : ℚ) * v⌋) ∧
    (splitTrainVal l v s).1.length + (splitTrainVal l v s).2.length = l.length ∧
    1 ≤ (splitTrainVal l v s).2.length := by
  have hn : 1 ≤ l.length := List.length_pos.mpr hne
  have hle := nVal_le l.length v hn hv
  have hsnd := splitTrainVal_snd_length l v s
  rw [min_eq_left hle] at hsnd
  have h1 : (1 : ℤ) ≤ max 1 (pyInt ((l.length : ℚ) * v)) := le_max_left ..
  refine ⟨?_, splitTrainVal_length_sum l v s, ?_⟩
  · rw [hsnd, Int.toNat_of_nonneg (by omega)]
    exact max_one_pyInt _
  · rw [hsnd]
    have h2 := Int.toNat_of_nonneg (a := max 1 (pyInt ((l.length : ℚ) * v))) (by omega)
    omega

/-- C1 witness: three images, `valFraction = 1/5`, seed 42. -/
theorem C1_witness :
    (((splitTrainVal ["a.jpg", "b.jpg", "c.jpg"] (1/5 : ℚ) 42).2.length : ℤ)
        = max 1 ⌊((["a.jpg", "b.jpg", "c.jpg"] : List String).length : ℚ) * (1/5 : ℚ)⌋) ∧
    (splitTrainVal ["a.jpg", "b.jpg", "c.jpg"] (1/5 : ℚ) 42).1.length
        + (splitTrainVal ["a.jpg", "b.jpg", "c.jpg"] (1/5 : ℚ) 42).2.length
        = (["a.jpg", "b.jpg", "c.jpg"] : List String).length ∧
    1 ≤ (splitTrainVal ["a.jpg", "b.jpg", "c.jpg"] (1/5 : ℚ) 42).2.length :=
  C1_split_counts _ _ _ (by decide) (by norm_num)

/-- C1 counterexample: with one image and `valFraction = 2` the claimed
equality `val_count = max(1, floor(n * valFraction))` fails — the validation
set has 1 image while `max(1, floor(1 * 2)) = 2`. -/
theorem C1_counterexample :
    ¬ (((splitTrainVal ["a.jpg"] 2 42).2.length : ℤ)
        = max 1 ⌊((["a.jpg"] : List String).length : ℚ) * 2⌋) := by
  have e : ((["a.jpg"] : List String).length : ℚ) * 2 = ((2 : ℤ) : ℚ) := by
    norm_num
  have hp : pyInt (((["a.jpg"] : List String).length : ℚ) * 2) = 2 := by
    unfold pyInt
    rw [if_pos (by rw [e]; norm_num), e, Int.floor_intCast]
  have hlen : (splitTrainVal ["a.jpg"] 2 42).2.length = 1 := by
    rw [splitTrainVal_snd_length, hp]
    decide
  rw [hlen, e, Int.floor_intCast]
  decide

/-- C2: the train/val split is a deterministic function of the input set and
the seed — permuting the input list does not change the result, and the
result is sort-by-name, seeded shuffle, then slice at
`max(1, int(n * valFraction))`. -/
theorem C2_split_deterministic (l₁ l₂ : List String) (v : ℚ) (s : Nat)
    (hne : l₁ ≠ []) (hperm : l₁.Perm l₂) :
    splitTrainVal l₁ v s = splitTrainVal l₂ v s ∧
    splitTrainVal l₁ v s =
      (let shuffled := pyShuffle s (List.insertionSort (· ≤ ·) l₁)
       let nVal := (max 1 (pyInt ((shuffled.length : ℚ) * v))).toNat
       (shuffled.drop nVal, shuffled.take nVal)) := by
  refine ⟨?_, rfl⟩
  unfold splitTrainVal
  rw [insertionSort_eq_of_perm hperm]

/-- C2 witness: the same two-image set presented in two orders, seed 42. -/
theorem C2_witness :
    splitTrainVal ["b.jpg", "a.jpg"] (1/5 : ℚ) 42
        = splitTrainVal ["a.jpg", "b.jpg"] (1/5 : ℚ) 42 ∧
    splitTrainVal ["b.jpg", "a.jpg"] (1/5 : ℚ) 42 =
      (let shuffled := pyShuffle 42 (List.insertionSort (· ≤ ·) ["b.jpg", "a.jpg"])
       let nVal := (max 1 (pyInt ((shuffled.length : ℚ) * (1/5 : ℚ)))).toNat
       (shuffled.drop nVal, shuffled.take nVal)) :=
  C2_split_deterministic _ _ _ _ (by decide) (by decide)

/-- C3: an image with no matching `.txt` label is still copied to the
destination images directory, appears in the missing-labels list exactly
once (directory listings contain each name once, hence the `Nodup`
hypothesis), and the operation is total — the missing-label branch of
`copy_pairs` raises nothing. -/
theorem C3_missing_label (pairs : List String) (labelExists : String → Bool)
    (img : String) (hmem : img ∈ pairs) (hnd : pairs.Nodup)
    (hno : labelExists (withSuffixTxt img) = false) :
    img ∈ (copy_pairs pairs labelExists).dstImages ∧
    (copy_pairs pairs labelExists).missing_labels.count img = 1 := by
  refine ⟨?_, ?_⟩
  · rw [copy_pairs_dstImages]
    exact hmem
  · rw [copy_pairs_missing, List.count_filter (by simp [hno])]
    exact List.count_eq_one_of_mem hnd hmem

/-- C3 witness: `b.jpg` has no label (only `a.txt` exists). -/
theorem C3_witness :
    "b.jpg" ∈ (copy_pairs ["a.jpg", "b.jpg"] (fun nm => nm == "a.txt")).dstImages ∧
    (copy_pairs ["a.jpg", "b.jpg"] (fun nm => nm == "a.txt")).missing_labels.count "b.jpg"
      = 1 :=
  C3_missing_label _ _ _ (by decide) (by decide) (by decide)

/-- C9: `copy_pairs` reports `copied` equal to the length of its input list
(every image is copied whether or not it has a label), and its missing-labels
list is exactly the label-less input images in input order. -/
theorem C9_copy_counts (pairs : List String) (labelExists : String → Bool) :
    (copy_pairs pairs labelExists).copied = pairs.length ∧
    (copy_pairs pairs labelExists).missing_labels
      = pairs.filter (fun i => !(labelExists (withSuffixTxt i))) :=
  ⟨copy_pairs_copied pairs labelExists, copy_pairs_missing pairs labelExists⟩

/-- C4 (amended): if no entry of the source directory has an image extension
(file or not), `main` reports the empty set and returns before any
destination side effect: no directories created, nothing copied, no manifest
written.  (The original claim's condition "contains no image files" is not
enough: a subdirectory named like an image defeats the emptiness check, see
`C4_counterexample`.) -/
theorem C4_empty_source (entries : List Entry) (classesTxt : Option String)
    (v : ℚ) (s : Nat) (h : ∀ e ∈ entries, isImageExt e.name = false) :
    (main entries classesTxt v s).exitedEmpty = true ∧
    (main entries classesTxt v s).dirsCreated = false ∧
    (main entries classesTxt v s).copiedTrain = 0 ∧
    (main entries classesTxt v s).copiedVal = 0 ∧
    (main entries classesTxt v s).dstTrainImages = [] ∧
    (main entries classesTxt v s).dstValImages = [] ∧
    (main entries classesTxt v s).dstTrainLabels = [] ∧
    (main entries classesTxt v s).dstValLabels = [] ∧
    (main entries classesTxt v s).manifest = none := by
  have hfi : find_images entries = [] := by
    simp only [find_images, List.filter_eq_nil_iff]
    intro e he
    simp [h e he]
  simp [main, hfi]

/-- C4 witness: a source directory holding only `classes.txt`. -/
theorem C4_witness :
    (main [Entry.mk "classes.txt" true] none (1/5 : ℚ) 42).exitedEmpty = true ∧
    (main [Entry.mk "classes.txt" true] none (1/5 : ℚ) 42).dirsCreated = false ∧
    (main [Entry.mk "classes.txt" true] none (1/5 : ℚ) 42).copiedTrain = 0 ∧
    (main [Entry.mk "classes.txt" true] none (1/5 : ℚ) 42).copiedVal = 0 ∧
    (main [Entry.mk "classes.txt" true] none (1/5 : ℚ) 42).dstTrainImages = [] ∧
    (main [Entry.mk "classes.txt" true] none (1/5 : ℚ) 42).dstValImages = [] ∧
    (main [Entry.mk "classes.txt" true] none (1/5 : ℚ) 42).dstTrainLabels = [] ∧
    (main [Entry.mk "classes.txt" true] none (1/5 : ℚ) 42).dstValLabels = [] ∧
    (main [Entry.mk "classes.txt" true] none (1/5 : ℚ) 42).manifest = none :=
  C4_empty_source _ _ _ _ (by decide)

/-- C4 counterexample: a source whose only entry is a subdirectory named
`sub.jpg` contains no image files, yet `main` proceeds to create the
destination directories instead of exiting. -/
theorem C4_counterexample :
    (Entry.mk "sub.jpg" false).isFile = false ∧
    (main [Entry.mk "sub.jpg" false] none (1/5 : ℚ) 42).dirsCreated = true :=
  ⟨rfl, by decide⟩

/-- C5 (amended): `read_classes` returns the whitespace-stripped lines of
`classes.txt` with whitespace-only lines skipped when the file exists (the
original claim said "the lines … with blank lines skipped", without the
stripping, see `C5_counterexample`), and `none` when the file is absent; in
the absent case the run warns, writes `nc: 0` and `names: []` into
`data.yaml`, and directory creation and the copies still proceed. -/
theorem C5_read_classes (content : String) (entries : List Entry)
    (v : ℚ) (s : Nat) (h : find_images entries ≠ []) :
    read_classes (some content)
      = some ((pySplitlines content).filterMap (fun l =>
          if pyStrip l = "" then none else some (pyStrip l))) ∧
    read_classes none = none ∧
    (main entries none v s).warnedNoClasses = true ∧
    (main entries none v s).manifest = some ⟨0, []⟩ ∧
    (main entries none v s).dirsCreated = true ∧
    (main entries none v s).copiedTrain + (main entries none v s).copiedVal
      = (find_images entries).length := by
  rw [main_nonempty_spec _ _ _ _ h]
  refine ⟨rfl, rfl, rfl, rfl, rfl, ?_⟩
  show (copy_pairs (splitTrainVal ((find_images entries).map Entry.name) v s).1 _).copied
      + (copy_pairs (splitTrainVal ((find_images entries).map Entry.name) v s).2 _).copied
      = (find_images entries).length
  rw [copy_pairs_copied, copy_pairs_copied, splitTrainVal_length_sum,
    List.length_map]

/-- C5 witness: one image, `classes.txt` absent, file content `" cat \n\ndog"`
for the present-file conjunct. -/
theorem C5_witness :
    read_classes (some " cat \n\ndog")
      = some ((pySplitlines " cat \n\ndog").filterMap (fun l =>
          if pyStrip l = "" then none else some (pyStrip l))) ∧
    read_classes none = none ∧
    (main [Entry.mk "a.jpg" true] none (1/5 : ℚ) 42).warnedNoClasses = true ∧
    (main [Entry.mk "a.jpg" true] none (1/5 : ℚ) 42).manifest = some ⟨0, []⟩ ∧
    (main [Entry.mk "a.jpg" true] none (1/5 : ℚ) 42).dirsCreated = true ∧
    (main [Entry.mk "a.jpg" true] none (1/5 : ℚ) 42).copiedTrain
        + (main [Entry.mk "a.jpg" true] none (1/5 : ℚ) 42).copiedVal
      = (find_images [Entry.mk "a.jpg" true]).length :=
  C5_read_classes _ _ _ _ (by decide)

/-- C5 counterexample: on the one-line file `" cat"` the code returns the
stripped line `"cat"`, not the raw line `" cat"` that "the lines of
classes.txt with blank lines skipped" denotes. -/
theorem C5_counterexample :
    read_classes (some " cat") = some ["cat"] ∧
    read_classes_claimed (some " cat") = some [" cat"] ∧
    read_classes (some " cat") ≠ read_classes_claimed (some " cat") :=
  ⟨by decide, by decide, by decide⟩

/-- C6 (amended): `find_images` returns exactly the directory entries whose
extension is `.jpg`, `.jpeg` or `.png` compared case-insensitively, with no
recursion (it sees only the top-level listing).  The original claim's
"every entry returned is a file" does not hold: the comprehension never
checks `is_file`, so a subdirectory with an image-like name is returned too,
see `C6_counterexample`. -/
theorem C6_find_images (entries : List Entry) (e : Entry) :
    e ∈ find_images entries ↔ e ∈ entries ∧ isImageExt e.name = true := by
  simp [find_images, List.mem_filter]

/-- C6 counterexample: a subdirectory named `sub.jpg` is returned by
`find_images` although it is not a file. -/
theorem C6_counterexample :
    Entry.mk "sub.jpg" false ∈ find_images [Entry.mk "sub.jpg" false] ∧
    (Entry.mk "sub.jpg" false).isFile = false :=
  ⟨by decide, rfl⟩

/-- C10: whenever `max(1, floor(n * valFraction)) = n` (in particular for a
single image), the validation set receives all images, the train set is
empty, and the run still completes: directories are created, the manifest is
written, and zero files land in `images/train`. -/
theorem C10_val_all (entries : List Entry) (classesTxt : Option String)
    (v : ℚ) (s : Nat) (hne : find_images entries ≠ [])
    (hval : max 1 ⌊((find_images entries).length : ℚ) * v⌋
      = ((find_images entries).length : ℤ)) :
    (main entries classesTxt v s).trainImgs = [] ∧
    (main entries classesTxt v s).valImgs.length = (find_images entries).length ∧
    (main entries classesTxt v s).dirsCreated = true ∧
    (main entries classesTxt v s).manifest.isSome = true ∧
    (main entries classesTxt v s).copiedTrain = 0 ∧
    (main entries classesTxt v s).dstTrainImages = [] := by
  rw [main_nonempty_spec _ _ _ _ hne]
  have hlen : ((find_images entries).map Entry.name).length
      = (find_images entries).length := List.length_map ..
  have hnv : (max 1 (pyInt ((((find_images entries).map Entry.name).length : ℚ) * v))).toNat
      = ((find_images entries).map Entry.name).length := by
    rw [max_one_pyInt, hlen, hval, Int.toNat_ofNat]
  have hsplit1 : (splitTrainVal ((find_images entries).map Entry.name) v s).1 = [] := by
    apply List.eq_nil_of_length_eq_zero
    rw [splitTrainVal_fst_length, hnv]
    omega
  have hsplit2 : (splitTrainVal ((find_images entries).map Entry.name) v s).2.length
      = (find_images entries).length := by
    rw [splitTrainVal_snd_length, hnv, min_self, hlen]
  refine ⟨hsplit1, hsplit2, rfl, rfl, ?_, ?_⟩
  · show (copy_pairs (splitTrainVal ((find_images entries).map Entry.name) v s).1 _).copied = 0
    rw [copy_pairs_copied, hsplit1]
    rfl
  · show (copy_pairs (splitTrainVal ((find_images entries).map Entry.name) v s).1 _).dstImages
      = []
    rw [copy_pairs_dstImages, hsplit1]

/-- C10 witness: a single image with `valFraction = 1/5`, so
`max(1, floor(1 * 1/5)) = 1 = n`. -/
theorem C10_witness :
    (main [Entry.mk "a.jpg" true] none (1/5 : ℚ) 42).trainImgs = [] ∧
    (main [Entry.mk "a.jpg" true] none (1/5 : ℚ) 42).valImgs.length
        = (find_images [Entry.mk "a.jpg" true]).length ∧
    (main [Entry.mk "a.jpg" true] none (1/5 : ℚ) 42).dirsCreated = true ∧
    (main [Entry.mk "a.jpg" true] none (1/5 : ℚ) 42).manifest.isSome = true ∧
    (main [Entry.mk "a.jpg" true] none (1/5 : ℚ) 42).copiedTrain = 0 ∧
    (main [Entry.mk "a.jpg" true] none (1/5 : ℚ) 42).dstTrainImages = [] := by
  refine C10_val_all _ _ _ _ (by decide) ?_
  rw [show (find_images [Entry.mk "a.jpg" true]).length = 1 from by decide]
  have h0 : ⌊((1 : ℕ) : ℚ) * (1/5 : ℚ)⌋ = 0 := by
    rw [Int.floor_eq_zero_iff]
    constructor <;> norm_num
  rw [h0]
  decide

/-- C7 (amended): detecting from a URL that is unreachable or answers with a
4xx/5xx status fails with a download error (connection error or
`HTTPError` from `raise_for_status`) and writes no output file — the failure
happens before any write.  (The original claim said any non-2xx response
fails; `raise_for_status` only raises for 400–599, so a 3xx final response
with a decodable body succeeds and writes, see `C7_counterexample`.) -/
theorem C7_download_failure (u : String) (o? : Option String)
    (fetch : Option HttpResponse) (lr : Bool) (hu : is_url u = true)
    (h : fetch = none ∨ ∃ r, fetch = some r ∧ 400 ≤ r.status ∧ r.status ≤ 599) :
    (∃ e, (detect_and_save u o? fetch lr).1 = Except.error e ∧
       (e = DetectError.requestError ∨
        ∃ st, 400 ≤ st ∧ st ≤ 599 ∧ e = DetectError.httpError st)) ∧
    (detect_and_save u o? fetch lr).2 = [] := by
  rcases h with h | ⟨r, hr, h4, h5⟩
  · subst h
    have hda : detect_and_annotate u none lr = .error .requestError := by
      unfold detect_and_annotate load_image_from_url
      rw [if_pos hu]
    constructor
    · exact ⟨.requestError, by simp [detect_and_save, hda], Or.inl rfl⟩
    · simp [detect_and_save, hda]
  · subst hr
    have hload : load_image_from_url (some r) = .error (.httpError r.status) := by
      show (if 400 ≤ r.status ∧ r.status ≤ 599
          then Except.error (DetectError.httpError r.status)
          else Except.ok (if r.bodyDecodes = true then some () else none))
        = Except.error (DetectError.httpError r.status)
      rw [if_pos ⟨h4, h5⟩]
    have hda : detect_and_annotate u (some r) lr = .error (.httpError r.status) := by
      unfold detect_and_annotate
      rw [if_pos hu, hload]
    constructor
    · exact ⟨.httpError r.status, by simp [detect_and_save, hda],
        Or.inr ⟨r.status, h4, h5, rfl⟩⟩
    · simp [detect_and_save, hda]

/-- C7 witness: an unreachable URL (`requests.get` raises). -/
theorem C7_witness :
    (∃ e, (detect_and_save "http://example.com/a.jpg" none none true).1
        = Except.error e ∧
       (e = DetectError.requestError ∨
        ∃ st, 400 ≤ st ∧ st ≤ 599 ∧ e = DetectError.httpError st)) ∧
    (detect_and_save "http://example.com/a.jpg" none none true).2 = [] :=
  C7_download_failure _ _ _ _ (by decide) (Or.inl rfl)

/-- C7 counterexample: a final response with status 300 — not a 2xx — whose
body decodes as an image makes the call succeed and write the output file,
contradicting "non-2xx response fails with a download error and writes no
output file". -/
theorem C7_counterexample :
    is_url "http://example.com/a.jpg" = true ∧
    ¬ (200 ≤ 300 ∧ 300 ≤ 299) ∧
    (detect_and_save "http://example.com/a.jpg" none
        (some ⟨300, true⟩) true).1 = Except.ok "url_detected.jpg" ∧
    (detect_and_save "http://example.com/a.jpg" none
        (some ⟨300, true⟩) true).2 = ["url_detected.jpg"] :=
  ⟨by decide, by decide, by rfl, by decide⟩

/-- C8: when the output path is omitted, the resolved (and returned) output
path is `url_detected.jpg` for a URL source and
`<stem>_detected<ext>` next to the input for a local path. -/
theorem C8_default_output (p : String) (fetch : Option HttpResponse) (lr : Bool)
    (out : String) (h : (detect_and_save p none fetch lr).1 = Except.ok out) :
    out = default_output p ∧
    (is_url p = true → out = "url_detected.jpg") ∧
    (is_url p = false →
      out = pathStr (pathJoin (pathParent (pyPath p))
        (pyStem (pathName (pyPath p)) ++ "_detected" ++ pySuffix (pathName (pyPath p))))) := by
  have hout : out = default_output p := by
    unfold detect_and_save at h
    cases hda : detect_and_annotate p fetch lr with
    | error e => rw [hda] at h; simp at h
    | ok u => rw [hda] at h; simpa using h.symm
  refine ⟨hout, fun hi => ?_, fun hi => ?_⟩
  · rw [hout]
    unfold default_output
    rw [if_pos hi]
  · rw [hout]
    unfold default_output
    rw [if_neg (by simp [hi])]

/-- C8 witness: local input `photos/cat.jpg` resolves to
`photos/cat_detected.jpg`, which is also the returned path. -/
theorem C8_witness :
    "photos/cat_detected.jpg" = default_output "photos/cat.jpg" ∧
    (is_url "photos/cat.jpg" = true → "photos/cat_detected.jpg" = "url_detected.jpg") ∧
    (is_url "photos/cat.jpg" = false →
      "photos/cat_detected.jpg" = pathStr (pathJoin (pathParent (pyPath "photos/cat.jpg"))
        (pyStem (pathName (pyPath "photos/cat.jpg")) ++ "_detected"
          ++ pySuffix (pathName (pyPath "photos/cat.jpg"))))) :=
  C8_default_output "photos/cat.jpg" none true "photos/cat_detected.jpg" (by rfl)

end GirlDetect
